import Mathlib

/-!
Verification of the video ingestion pipeline: a shallow embedding of
`handler_upload_video.go` and `video.go` (package main of the
learn-file-storage-s3-golang-starter repository).

Modelling conventions:
* external effects (ffprobe, ffmpeg, the S3 client, the database, the
  filesystem, crypto/rand) are oracles passed in as environment records,
  and the handler additionally records filesystem / network effects in an
  explicit trace;
* Go float64 arithmetic in getVideoAspectRatio is embedded as exact
  rational arithmetic (the spec states the classifier over real numbers);
* Go strings are Lean strings; strings.TrimSpace and strings.SplitN are
  modelled character-by-character below;
* Go (value, error) returns become `Except String` or a `value × Option String`
  pair when the Go function returns a value alongside the error.
-/

/-- Model of Go unicode.IsSpace restricted to the ASCII whitespace class
(space, tab, newline, carriage return, vertical tab, form feed); Go also
trims some non-ASCII Unicode spaces, which no string in this development
contains. -/
def isSpaceChar (c : Char) : Bool :=
  c == ' ' || c == '\t' || c == '\n' || c == '\r' || c == '\x0b' || c == '\x0c'

/-- Model of Go strings.TrimSpace: drop whitespace from both ends. -/
def trimSpace (s : String) : String :=
  ⟨((s.data.dropWhile isSpaceChar).reverse.dropWhile isSpaceChar).reverse⟩

/-- Split a character list at the first comma, if any. -/
def splitFirstComma : List Char → Option (List Char × List Char)
  | [] => none
  | c :: rest =>
    if c = ',' then some ([], rest)
    else (splitFirstComma rest).map (fun p => (c :: p.1, p.2))

/-- Model of Go strings.SplitN s "," 2: one part when s has no comma,
otherwise the text before the first comma and everything after it. -/
def splitN2 (s : String) : List String :=
  match splitFirstComma s.data with
  | none => [s]
  | some (a, b) => [⟨a⟩, ⟨b⟩]

/-- One stream record of the ffprobe JSON output (video.go, type stream). -/
structure FFStream where
  codec_type : String
  width : Int
  height : Int
deriving Repr, DecidableEq

/-- The ffprobe JSON output (video.go, type ffprobeOutput). -/
structure FFProbeOutput where
  streams : List FFStream
deriving Repr, DecidableEq

/-- Oracle for the ffprobe child process run by getVideoAspectRatio:
either it exits zero and its stdout parses to an FFProbeOutput, or the
run fails (nonzero exit), or json.Unmarshal fails. -/
inductive ProbeResult where
  | ok : FFProbeOutput → ProbeResult
  | runFailed : String → ProbeResult
  | parseFailed : ProbeResult
deriving Repr, DecidableEq

/-- video.go constant target169 = 16.0 / 9.0. -/
def target169 : ℚ := 16 / 9

/-- video.go constant target916 = 9.0 / 16.0. -/
def target916 : ℚ := 9 / 16

/-- video.go constant eps = 0.02 (2 percent tolerance). -/
def eps : ℚ := 2 / 100

/-- The ratio switch at the end of getVideoAspectRatio (video.go):
r = w / h, then the two tolerance-band tests in source order. -/
def classifyRatio (w h : Int) : String :=
  if |(w : ℚ) / (h : ℚ) - target169| < eps then "16:9"
  else if |(w : ℚ) / (h : ℚ) - target916| < eps then "9:16"
  else "other"

/-- The stream-selection loop of getVideoAspectRatio: the first stream
whose codec_type is "video" and whose dimensions are both positive;
(0, 0) when none qualifies (w, h keep their zero values in Go). -/
def firstVideoStream (streams : List FFStream) : Int × Int :=
  match streams.find? (fun s =>
      s.codec_type == "video" && decide (0 < s.width) && decide (0 < s.height)) with
  | some s => (s.width, s.height)
  | none => (0, 0)

/-- video.go getVideoAspectRatio, with the ffprobe invocation abstracted
into a ProbeResult oracle. -/
def getVideoAspectRatio (probe : ProbeResult) : Except String String :=
  match probe with
  | .runFailed stderr => .error ("ffprobe failed; stderr: " ++ stderr)
  | .parseFailed => .error "failed to parse ffprobe to JSON"
  | .ok info =>
    let wh := firstVideoStream info.streams
    if wh.1 == 0 || wh.2 == 0 then
      .error "no valid video stream found with width and height"
    else
      .ok (classifyRatio wh.1 wh.2)

/-- Oracle for the external effects of processVideoForFastStart: whether
the ffmpeg run succeeds, whether os.Stat finds the output file, and the
size os.Stat reports for it. -/
structure RemuxEnv where
  ffmpegOK : Bool
  statOK : Bool
  outSize : Nat
deriving Repr, DecidableEq

/-- video.go processVideoForFastStart: reject an empty input path, derive
the output path by appending ".processing", run ffmpeg, then require the
output to exist and be non-empty. -/
def processVideoForFastStart (env : RemuxEnv) (filePath : String) : Except String String :=
  if filePath == "" then .error "empty input file path"
  else
    let outPath := filePath ++ ".processing"
    if env.ffmpegOK = false then .error "ffmpeg faststart failed"
    else if env.statOK = false then .error "processed file missing"
    else if env.outSize == 0 then .error "processed file is empty"
    else .ok outPath

/-- 15 * time.Minute in nanoseconds (Go time.Duration units). -/
def defaultExpiry : Int := 15 * 60 * 1000000000

/-- video.go constant maxTTL = 7 * 24 * time.Hour in nanoseconds. -/
def maxTTL : Int := 7 * 24 * 60 * 60 * 1000000000

/-- Oracle for the S3 presign client used by generatePresignedURL:
clientOK models s3Client != nil, presignErr a failure of
PresignGetObject, and url the URL the presigner would return for a
bucket, key and expiry. -/
structure PresignEnv where
  clientOK : Bool
  presignErr : Option String
  url : String → String → Int → String

/-- video.go generatePresignedURL: nil-client and empty bucket/key
checks, then the expiry substitution and clamp, then the presign call. -/
def generatePresignedURL (env : PresignEnv) (bucket key : String) (expireTime : Int) :
    Except String String :=
  if env.clientOK = false then .error "s3Client is nil"
  else if bucket == "" || key == "" then .error "bucket and key are required"
  else
    let expire1 := if expireTime ≤ 0 then defaultExpiry else expireTime
    let expire2 := if maxTTL < expire1 then maxTTL else expire1
    match env.presignErr with
    | some e => .error ("presign get object: " ++ e)
    | none => .ok (env.url bucket key expire2)

/-- The fields of database.Video this development needs: the owner id and
the VideoURL field (nil pointer modelled as none). -/
structure Video where
  userID : Nat
  videoURL : Option String
deriving Repr, DecidableEq

/-- video.go dbVideoToSignedVideo: nil VideoURL passes through, an empty
VideoURL is an error, otherwise split at the first comma, trim both
segments, reject an empty bucket or key, and presign with the 15-minute
default expiry. The Go function returns (video, err); errors are the
some values of the second component, and on success the returned record
carries the signed URL. -/
def dbVideoToSignedVideo (env : PresignEnv) (video : Video) : Video × Option String :=
  match video.videoURL with
  | none => (video, none)
  | some u =>
    if u == "" then (video, some "video has empty VideoURL")
    else
      match splitN2 u with
      | [p0, p1] =>
        let bucket := trimSpace p0
        let key := trimSpace p1
        if bucket == "" || key == "" then
          (video, some ("invalid bucket/key parsed from VideoURL: bucket=" ++
            bucket ++ " key=" ++ key))
        else
          match generatePresignedURL env bucket key defaultExpiry with
          | .error e => (video, some ("presigning S3 URL: " ++ e))
          | .ok signedURL => ({ video with videoURL := some signedURL }, none)
      | _ => (video, some ("invalid VideoURL format (want bucket,key), got: " ++ u))

/-- handler_upload_video.go, the orientation switch on the aspect-ratio
string. -/
def orientationOf (aspect : String) : String :=
  if aspect == "16:9" then "landscape"
  else if aspect == "9:16" then "portrait"
  else "other"

/-- handler_upload_video.go constant tempVideoName, the pattern passed to
os.CreateTemp and, verbatim, the argument of the deferred os.Remove. -/
def tempVideoName : String := "tubely-upload.mp4"

/-- The fmt.Sprintf building the persisted VideoURL in
handler_upload_video.go. -/
def videoUrlOf (s3Bucket s3Region videoKey : String) : String :=
  "https://" ++ s3Bucket ++ ".s3." ++ s3Region ++ ".amazonaws.com/" ++ videoKey

/-- Filesystem and network effects the upload handler performs, recorded
in order. remux would be an invocation of processVideoForFastStart. -/
inductive Effect where
  | createTemp : String → String → Effect
  | copyToFile : String → Effect
  | probeFile : String → Effect
  | seekStart : String → Effect
  | randRead : Effect
  | putObject : String → String → String → String → Effect
  | dbUpdate : String → Effect
  | closeFile : String → Effect
  | removeFile : String → Effect
  | remux : String → Effect
deriving Repr, DecidableEq

/-- Oracle environment for one run of handlerUploadVideo: the outcomes of
every external call the handler makes, in source order. -/
structure UploadEnv where
  videoIDValid : Bool
  tokenFound : Bool
  jwtValid : Bool
  userID : Nat
  dbGetOK : Bool
  video : Video
  formFileOK : Bool
  contentTypeHeader : String
  mimeParseOK : Bool
  mimeType : String
  createTempOK : Bool
  tempDir : String
  tempRandSuffix : String
  copyOK : Bool
  probe : ProbeResult
  seekOK : Bool
  randOK : Bool
  randomHex : String
  putObjectOK : Bool
  s3Bucket : String
  s3Region : String
  updateOK : Bool

/-- The name os.CreateTemp actually gives the temporary file: the pattern
appended with a random suffix, inside the temp directory — distinct from
the bare pattern string tempVideoName. -/
def createdTempPath (env : UploadEnv) : String :=
  env.tempDir ++ "/" ++ tempVideoName ++ env.tempRandSuffix

/-- Result of one run of the upload handler: HTTP status written, the
effect trace, and the VideoURL value written to the database (none when
the update was not reached or failed). -/
structure UploadResult where
  status : Nat
  trace : List Effect
  persisted : Option String

/-- The two deferred calls registered right after os.CreateTemp
succeeds, in the order they run at function exit (LIFO): dst.Close()
first, then os.Remove of the literal pattern string tempVideoName (the
Go code passes the pattern, not dst.Name(), to os.Remove). -/
def handlerDeferred (tmp : String) : List Effect :=
  [.closeFile tmp, .removeFile tempVideoName]

/-- The body of handlerUploadVideo from io.Copy onward, given the
temporary file tmp: copy the upload into tmp, probe the aspect ratio,
classify the orientation, seek back to the start, draw 16 random bytes,
PutObject of tmp under the generated key with the raw header media
type, and the database update of the https URL. The trace lists the
effects of this region; the caller appends the deferred effects. -/
def handlerWithTemp (env : UploadEnv) (tmp : String) : UploadResult :=
  if env.copyOK = false then ⟨500, [.copyToFile tmp], none⟩
  else
    match getVideoAspectRatio env.probe with
    | .error _ => ⟨500, [.copyToFile tmp, .probeFile tmp], none⟩
    | .ok aspect =>
      let orientation := orientationOf aspect
      if env.seekOK = false then
        ⟨500, [.copyToFile tmp, .probeFile tmp, .seekStart tmp], none⟩
      else if env.randOK = false then
        ⟨500, [.copyToFile tmp, .probeFile tmp, .seekStart tmp, .randRead], none⟩
      else
        let videoKey := orientation ++ "/" ++ env.randomHex ++ ".mp4"
        if env.putObjectOK = false then
          ⟨500, [.copyToFile tmp, .probeFile tmp, .seekStart tmp, .randRead,
                 .putObject env.s3Bucket videoKey tmp env.contentTypeHeader], none⟩
        else
          let videoUrl := videoUrlOf env.s3Bucket env.s3Region videoKey
          if env.updateOK = false then
            ⟨500, [.copyToFile tmp, .probeFile tmp, .seekStart tmp, .randRead,
                   .putObject env.s3Bucket videoKey tmp env.contentTypeHeader,
                   .dbUpdate videoUrl], none⟩
          else
            ⟨200, [.copyToFile tmp, .probeFile tmp, .seekStart tmp, .randRead,
                   .putObject env.s3Bucket videoKey tmp env.contentTypeHeader,
                   .dbUpdate videoUrl], some videoUrl⟩

/-- handler_upload_video.go handlerUploadVideo, step for step: id parse,
bearer token, JWT, GetVideo, ownership, form file and Content-Type
checks, temp-file creation, then the post-creation region
(handlerWithTemp) with the deferred dst.Close and os.Remove appended on
every one of its exit paths. -/
def handlerUploadVideo (env : UploadEnv) : UploadResult :=
  if env.videoIDValid = false then ⟨400, [], none⟩
  else if env.tokenFound = false then ⟨401, [], none⟩
  else if env.jwtValid = false then ⟨401, [], none⟩
  else if env.dbGetOK = false then ⟨500, [], none⟩
  else if env.userID ≠ env.video.userID then ⟨401, [], none⟩
  else if env.formFileOK = false then ⟨400, [], none⟩
  else if env.contentTypeHeader == "" then ⟨400, [], none⟩
  else if env.mimeParseOK = false then ⟨400, [], none⟩
  else if (env.mimeType == "video/mp4") = false then ⟨400, [], none⟩
  else if env.createTempOK = false then ⟨500, [], none⟩
  else
    let tmp := createdTempPath env
    let r := handlerWithTemp env tmp
    ⟨r.status, .createTemp tempVideoName tmp :: r.trace ++ handlerDeferred tmp, r.persisted⟩

/-- Holds of an effect when it is not a remux invocation and, if it is an
object upload, its body is read from the handler's own temporary file. -/
def noRemuxUploadsTemp (env : UploadEnv) (e : Effect) : Bool :=
  match e with
  | .remux _ => false
  | .putObject _ _ body _ => body == createdTempPath env
  | _ => true

/-- Holds of an effect when it is not a file removal, or is the removal
of the literal pattern string tempVideoName. -/
def removesOnlyLiteralName (e : Effect) : Bool :=
  match e with
  | .removeFile p => p == tempVideoName
  | _ => true

/-! ## Concrete test data -/

/-- A probe result reporting a single 1920 x 1080 video stream. -/
def probe1920x1080 : ProbeResult := .ok ⟨[⟨"video", 1920, 1080⟩]⟩

/-- A presign environment whose client is live, whose presigner succeeds,
and whose returned URL records the bucket, key and expiry it was asked
to sign. -/
def presignProbe : PresignEnv where
  clientOK := true
  presignErr := none
  url := fun bucket key _ => "signed(" ++ bucket ++ "|" ++ key ++ ")"

/-- An upload-handler environment in which every external call succeeds
and the uploaded file is a 1920 x 1080 mp4. -/
def envAllOK : UploadEnv where
  videoIDValid := true
  tokenFound := true
  jwtValid := true
  userID := 7
  dbGetOK := true
  video := ⟨7, none⟩
  formFileOK := true
  contentTypeHeader := "video/mp4"
  mimeParseOK := true
  mimeType := "video/mp4"
  createTempOK := true
  tempDir := "/tmp"
  tempRandSuffix := "123456789"
  copyOK := true
  probe := probe1920x1080
  seekOK := true
  randOK := true
  randomHex := "0123456789abcdef0123456789abcdef"
  putObjectOK := true
  s3Bucket := "my-bucket"
  s3Region := "us-east-1"
  updateOK := true

/-- A remux environment in which ffmpeg succeeds and the output file
exists with nonzero size. -/
def remuxAllOK : RemuxEnv where
  ffmpegOK := true
  statOK := true
  outSize := 4096

/-! ## Helper lemmas -/

theorem classify_1920_1080 : classifyRatio 1920 1080 = "16:9" := by
  unfold classifyRatio
  rw [ if_pos (by norm_num [ target169, eps, abs_lt])]

theorem probe1920x1080_aspect : getVideoAspectRatio probe1920x1080 = .ok "16:9" := by
  unfold getVideoAspectRatio probe1920x1080 firstVideoStream
  simp [ List.find?, classify_1920_1080]

theorem handler_envAllOK_persisted :
    (handlerUploadVideo envAllOK).persisted =
      some "https://my-bucket.s3.us-east-1.amazonaws.com/landscape/0123456789abcdef0123456789abcdef.mp4" := by
  unfold handlerUploadVideo handlerWithTemp
  simp [ envAllOK, probe1920x1080_aspect, orientationOf, createdTempPath,
    videoUrlOf, tempVideoName]

theorem created_ne_literal (env : UploadEnv) :
    (createdTempPath env == tempVideoName) = false := by
  rw [ beq_eq_false_iff_ne]
  intro hcontra
  have hl := congrArg String.length hcontra
  rw [ createdTempPath] at hl
  have hslash : ("/").length = 1 := rfl
  simp [ String.length_append, hslash] at hl
  omega

theorem created_ne_empty (env : UploadEnv) :
    (createdTempPath env == "") = false := by
  rw [ beq_eq_false_iff_ne]
  intro hcontra
  have hl := congrArg String.length hcontra
  rw [ createdTempPath] at hl
  have hslash : ("/").length = 1 := rfl
  have hzero : ("" : String).length = 0 := rfl
  simp [ String.length_append, hslash, hzero] at hl

theorem processing_suffix_ne (s : String) : ((s ++ ".processing") == s) = false := by
  rw [ beq_eq_false_iff_ne]
  intro hcontra
  have hl := congrArg String.length hcontra
  have hsuf : (".processing").length = 11 := rfl
  simp [ String.length_append, hsuf] at hl

theorem handlerWithTemp_all_removesOnly (env : UploadEnv) (tmp : String) :
    ((handlerWithTemp env tmp).trace.all removesOnlyLiteralName) = true := by
  unfold handlerWithTemp
  repeat' split
  all_goals simp [ removesOnlyLiteralName]

theorem handlerWithTemp_all_noRemux (env : UploadEnv) :
    ((handlerWithTemp env (createdTempPath env)).trace.all (noRemuxUploadsTemp env)) = true := by
  unfold handlerWithTemp
  repeat' split
  all_goals simp [ noRemuxUploadsTemp]

/-! ## Claim theorems -/

/-- Claim C1: the claim says every successful upload persists the
Reference Codec encoding "bucket,key", which then decodes back to the
pair. The code instead persists an https object URL: on a fully
successful run the persisted field is the amazonaws.com URL, it differs
from the "bucket,key" encoding, and feeding it back to the read path
dbVideoToSignedVideo reports an error (no comma to split on), violating
the stated invariant. -/
theorem c1_persisted_field_is_https_url_and_fails_decode :
    (handlerUploadVideo envAllOK).persisted =
      some "https://my-bucket.s3.us-east-1.amazonaws.com/landscape/0123456789abcdef0123456789abcdef.mp4" ∧
    (((handlerUploadVideo envAllOK).persisted ==
      some "my-bucket,landscape/0123456789abcdef0123456789abcdef.mp4") = false) ∧
    ((dbVideoToSignedVideo presignProbe
        ⟨7, some "https://my-bucket.s3.us-east-1.amazonaws.com/landscape/0123456789abcdef0123456789abcdef.mp4"⟩).2).isSome
      = true := by
  refine ⟨handler_envAllOK_persisted, ?_, by decide⟩
  rw [ handler_envAllOK_persisted]
  decide

/-- Claim C2: the claim says processVideoForFastStart runs between
orientation classification and upload and that the uploader receives
the remuxed file. In the code no run of the handler performs a remux
effect, every PutObject in every trace reads the original temporary
upload file, and a successful output of processVideoForFastStart on
that file could never coincide with it (the remux output always carries
the ".processing" suffix). -/
theorem c2_handler_never_remuxes_uploads_original (env : UploadEnv) :
    ((handlerUploadVideo env).trace.all (noRemuxUploadsTemp env)) = true ∧
    (∀ renv out, processVideoForFastStart renv (createdTempPath env) = .ok out →
      (out == createdTempPath env) = false) := by
  constructor
  · unfold handlerUploadVideo
    repeat' split
    all_goals simp [ noRemuxUploadsTemp, handlerDeferred, List.all_append,
      handlerWithTemp_all_noRemux]
  · intro renv out hok
    rw [ processVideoForFastStart] at hok
    rw [ if_neg (by simp [ created_ne_empty env])] at hok
    repeat' split at hok
    all_goals first
      | exact Except.noConfusion hok
      | (injection hok with hout
         rw [ ← hout]
         exact processing_suffix_ne (createdTempPath env))

/-- Claim C2 witness: in the all-success environment, a successful remux
of the handler's temporary file produces a path distinct from the file
the handler actually uploads. -/
theorem c2_witness_remux_output_differs :
    ((createdTempPath envAllOK ++ ".processing") == createdTempPath envAllOK) = false :=
  (c2_handler_never_remuxes_uploads_original envAllOK).2 remuxAllOK
    (createdTempPath envAllOK ++ ".processing") rfl

/-- Claim C3 counterexample: decoding an empty stored reference string is
an error in the code, not a silent "no reference": the error component
of dbVideoToSignedVideo is some for the empty string. -/
theorem c3_counterexample_empty_string_is_an_error :
    ((dbVideoToSignedVideo presignProbe ⟨1, some ""⟩).1 = Video.mk 1 (some "")) ∧
    ((dbVideoToSignedVideo presignProbe ⟨1, some ""⟩).2).isSome = true := by
  constructor <;> decide

/-- Claim C3 (amended): a nil stored reference is treated as "no
reference present" and the record passes through unchanged with no
error; an empty string reference instead reports an error, with the
record still returned unchanged. -/
theorem c3_amended_nil_passes_empty_string_errors (env : PresignEnv) (uid : Nat) :
    dbVideoToSignedVideo env ⟨uid, none⟩ = (⟨uid, none⟩, none) ∧
    (dbVideoToSignedVideo env ⟨uid, some ""⟩).1 = ⟨uid, some ""⟩ ∧
    ((dbVideoToSignedVideo env ⟨uid, some ""⟩).2).isSome = true := by
  exact ⟨rfl, rfl, rfl⟩

/-- Claim C4: the claim defines encode as the operation the write path
uses. The write path builds the https object URL (videoUrlOf) and the
read path rejects that very string as malformed, so
decode(encode(bucket, key)) does not return (bucket, key) even for
non-empty comma-free bucket and key: at bucket "tubely",
key "other/vid.mp4" the decode reports an error and leaves the record
unchanged. -/
theorem c4_roundtrip_fails_on_write_path_encoding :
    ((dbVideoToSignedVideo presignProbe
        ⟨3, some (videoUrlOf "tubely" "eu-west-1" "other/vid.mp4")⟩).1 =
      Video.mk 3 (some (videoUrlOf "tubely" "eu-west-1" "other/vid.mp4"))) ∧
    ((dbVideoToSignedVideo presignProbe
        ⟨3, some (videoUrlOf "tubely" "eu-west-1" "other/vid.mp4")⟩).2).isSome = true := by
  constructor <;> decide

/-- Claim C5: for positive dimensions, the composed classifier (the
ratio switch of getVideoAspectRatio followed by the orientation switch
of the upload handler) returns landscape when the ratio is within 0.02
of 16/9, portrait when it is not but is within 0.02 of 9/16, and other
when it is within neither band. -/
theorem c5_classifier_tolerance_bands (w h : Int) (hw : 0 < w) (hh : 0 < h) :
    (|(w : ℚ) / (h : ℚ) - target169| < eps →
      orientationOf (classifyRatio w h) = "landscape") ∧
    (¬(|(w : ℚ) / (h : ℚ) - target169| < eps) →
      |(w : ℚ) / (h : ℚ) - target916| < eps →
      orientationOf (classifyRatio w h) = "portrait") ∧
    (¬(|(w : ℚ) / (h : ℚ) - target169| < eps) →
      ¬(|(w : ℚ) / (h : ℚ) - target916| < eps) →
      orientationOf (classifyRatio w h) = "other") := by
  refine ⟨fun h1 => ?_, fun h1 h2 => ?_, fun h1 h2 => ?_⟩
  · unfold classifyRatio
    rw [ if_pos h1]
    rfl
  · unfold classifyRatio
    rw [ if_neg h1, if_pos h2]
    rfl
  · unfold classifyRatio
    rw [ if_neg h1, if_neg h2]
    rfl

/-- Claim C5 witness: 1920x1080 classifies as landscape, 1080x1920 as
portrait, 1000x1000 as other. -/
theorem c5_witness_examples :
    orientationOf (classifyRatio 1920 1080) = "landscape" ∧
    orientationOf (classifyRatio 1080 1920) = "portrait" ∧
    orientationOf (classifyRatio 1000 1000) = "other" := by
  refine ⟨(c5_classifier_tolerance_bands 1920 1080 (by norm_num) (by norm_num)).1
      (by norm_num [ target169, eps, abs_lt]),
    (c5_classifier_tolerance_bands 1080 1920 (by norm_num) (by norm_num)).2.1
      (by norm_num [ target169, eps, abs_lt])
      (by norm_num [ target916, eps, abs_lt]),
    (c5_classifier_tolerance_bands 1000 1000 (by norm_num) (by norm_num)).2.2
      (by norm_num [ target169, eps, abs_lt])
      (by norm_num [ target916, eps, abs_lt])⟩

/-- Claim C6: generatePresignedURL never rejects a request for its
duration: with a live client, nonempty bucket and key and a working
presigner it signs with the 15-minute default when the requested
duration is nonpositive, with exactly 7 days when the request exceeds 7
days, and with the requested duration itself otherwise. -/
theorem c6_expiry_clamping (env : PresignEnv) (bucket key : String) (d : Int)
    (hc : env.clientOK = true) (hb : (bucket == "") = false) (hk : (key == "") = false)
    (hp : env.presignErr = none) :
    (d ≤ 0 → generatePresignedURL env bucket key d = .ok (env.url bucket key defaultExpiry)) ∧
    (maxTTL < d → generatePresignedURL env bucket key d = .ok (env.url bucket key maxTTL)) ∧
    (0 < d → d ≤ maxTTL → generatePresignedURL env bucket key d = .ok (env.url bucket key d)) := by
  refine ⟨fun hd => ?_, fun hd => ?_, fun hd1 hd2 => ?_⟩
  · have hnc : ¬(maxTTL < defaultExpiry) := by decide
    simp [ generatePresignedURL, hc, hb, hk, hp, hd, hnc]
  · have hpos : ¬(d ≤ 0) := by
      rw [ maxTTL] at hd
      omega
    simp [ generatePresignedURL, hc, hb, hk, hp, hd, hpos]
  · have hnc : ¬(maxTTL < d) := by omega
    have hpos : ¬(d ≤ 0) := by omega
    simp [ generatePresignedURL, hc, hb, hk, hp, hnc, hpos]

/-- Claim C6 witness: a negative request signs with the 15-minute
default, a request over 7 days signs with exactly 7 days, and a 1-hour
request signs with exactly 1 hour. -/
theorem c6_witness_concrete_durations :
    generatePresignedURL presignProbe "b" "k" (-1) =
      .ok (presignProbe.url "b" "k" defaultExpiry) ∧
    generatePresignedURL presignProbe "b" "k" 700000000000000 =
      .ok (presignProbe.url "b" "k" maxTTL) ∧
    generatePresignedURL presignProbe "b" "k" 3600000000000 =
      .ok (presignProbe.url "b" "k" 3600000000000) := by
  refine ⟨(c6_expiry_clamping presignProbe "b" "k" (-1) rfl rfl rfl rfl).1 (by decide),
    (c6_expiry_clamping presignProbe "b" "k" 700000000000000 rfl rfl rfl rfl).2.1 (by decide),
    (c6_expiry_clamping presignProbe "b" "k" 3600000000000 rfl rfl rfl rfl).2.2
      (by decide) (by decide)⟩

/-- Claim C7: a non-empty stored reference with no comma, or whose
trimmed bucket or key segment is empty, makes dbVideoToSignedVideo
report an error while returning the record unchanged, its URL field
intact — distinct from the nil no-reference case, which reports no
error. -/
theorem c7_malformed_reference_errors_record_kept (env : PresignEnv) (uid : Nat)
    (s : String) (hne : (s == "") = false) :
    ((splitN2 s).length = 1 →
      (dbVideoToSignedVideo env ⟨uid, some s⟩).1 = ⟨uid, some s⟩ ∧
      ((dbVideoToSignedVideo env ⟨uid, some s⟩).2).isSome = true) ∧
    (∀ p0 p1, splitN2 s = [p0, p1] →
      (trimSpace p0 == "" || trimSpace p1 == "") = true →
      (dbVideoToSignedVideo env ⟨uid, some s⟩).1 = ⟨uid, some s⟩ ∧
      ((dbVideoToSignedVideo env ⟨uid, some s⟩).2).isSome = true) := by
  constructor
  · intro hlen
    rcases hsp : splitN2 s with _ | ⟨p0, rest⟩
    · rw [ hsp] at hlen
      simp at hlen
    · rcases rest with _ | ⟨p1, rest2⟩
      · unfold dbVideoToSignedVideo
        simp [ hne, hsp]
      · rw [ hsp] at hlen
        simp at hlen
  · intro p0 p1 hsp htrim
    unfold dbVideoToSignedVideo
    simp [ hne, hsp, htrim]

/-- Claim C7 witness: a comma-free reference and a reference whose
bucket segment is all whitespace both produce errors. -/
theorem c7_witness_concrete_malformed :
    ((dbVideoToSignedVideo presignProbe ⟨2, some "nocommastring"⟩).2).isSome = true ∧
    ((dbVideoToSignedVideo presignProbe ⟨2, some "  ,somekey"⟩).2).isSome = true := by
  refine ⟨((c7_malformed_reference_errors_record_kept presignProbe 2 "nocommastring"
      (by decide)).1 (by decide)).2,
    ((c7_malformed_reference_errors_record_kept presignProbe 2 "  ,somekey"
      (by decide)).2 "  " "somekey" (by decide) (by decide)).2⟩

/-- Claim C8: the two tolerance bands of the classifier are disjoint for
every ratio, so the order of the two checks never matters: membership
in the 9/16 band alone already forces the 9:16 answer even though the
16/9 band is tested first. -/
theorem c8_tolerance_bands_disjoint (w h : Int) (hw : 0 < w) (hh : 0 < h) :
    (¬(|(w : ℚ) / (h : ℚ) - target169| < eps ∧
       |(w : ℚ) / (h : ℚ) - target916| < eps)) ∧
    (|(w : ℚ) / (h : ℚ) - target916| < eps → classifyRatio w h = "9:16") := by
  have hdisj : ¬(|(w : ℚ) / (h : ℚ) - target169| < eps ∧
      |(w : ℚ) / (h : ℚ) - target916| < eps) := by
    rintro ⟨h1, h2⟩
    rw [ abs_lt] at h1 h2
    simp only [ target169, target916, eps] at h1 h2
    linarith [ h1.1, h2.2]
  refine ⟨hdisj, fun h2 => ?_⟩
  have h1 : ¬(|(w : ℚ) / (h : ℚ) - target169| < eps) := fun h1 => hdisj ⟨h1, h2⟩
  unfold classifyRatio
  rw [ if_neg h1, if_pos h2]

/-- Claim C8 witness: 9x16 lies in the 9/16 band and classifies as 9:16. -/
theorem c8_witness_9x16 : classifyRatio 9 16 = "9:16" :=
  (c8_tolerance_bands_disjoint 9 16 (by norm_num) (by norm_num)).2
    (by norm_num [ target916, eps, abs_lt])

/-- Claim C10: for a stored reference containing a comma, the decoder
uses the whitespace-trimmed bucket and key segments: when both trims
are nonempty the presigner is called on the trimmed values and the
record's URL is replaced by the signed URL, and when either segment
trims to empty the reference is rejected as malformed with the record
unchanged. -/
theorem c10_segments_whitespace_trimmed (env : PresignEnv) (uid : Nat)
    (s p0 p1 : String) (hne : (s == "") = false) (hsp : splitN2 s = [p0, p1]) :
    ((trimSpace p0 == "") = false → (trimSpace p1 == "") = false →
      env.clientOK = true → env.presignErr = none →
      dbVideoToSignedVideo env ⟨uid, some s⟩ =
        (⟨uid, some (env.url (trimSpace p0) (trimSpace p1) defaultExpiry)⟩, none)) ∧
    ((trimSpace p0 == "" || trimSpace p1 == "") = true →
      (dbVideoToSignedVideo env ⟨uid, some s⟩).1 = ⟨uid, some s⟩ ∧
      ((dbVideoToSignedVideo env ⟨uid, some s⟩).2).isSome = true) := by
  constructor
  · intro h0 h1 hc hp
    have hnc : ¬(maxTTL < defaultExpiry) := by decide
    have hdp : ¬(defaultExpiry ≤ 0) := by decide
    unfold dbVideoToSignedVideo generatePresignedURL
    simp [ hne, hsp, h0, h1, hc, hp, hnc, hdp]
  · intro htrim
    unfold dbVideoToSignedVideo
    simp [ hne, hsp, htrim]

/-- Claim C10 witness: whitespace-padded segments decode to their
trimmed values and are signed, while an all-whitespace bucket segment
is rejected. -/
theorem c10_witness_padded_segments :
    dbVideoToSignedVideo presignProbe ⟨5, some " my-bucket , videos/a.mp4 "⟩ =
      (⟨5, some "signed(my-bucket|videos/a.mp4)"⟩, none) ∧
    ((dbVideoToSignedVideo presignProbe ⟨5, some "   ,videos/a.mp4"⟩).2).isSome = true := by
  constructor
  · have happ := (c10_segments_whitespace_trimmed presignProbe 5
      " my-bucket , videos/a.mp4 " " my-bucket " " videos/a.mp4 "
      (by decide) (by decide)).1 (by decide) (by decide) rfl rfl
    exact happ.trans (by decide)
  · exact ((c10_segments_whitespace_trimmed presignProbe 5 "   ,videos/a.mp4"
      "   " "videos/a.mp4" (by decide) (by decide)).2 (by decide)).2

/-- Claim C9: the claim says the request's temporary files are deleted on
every exit path. In the code the only file ever removed, on any exit
path, is the literal pattern string "tubely-upload.mp4" (the argument
Go passes to the deferred os.Remove), and the file os.CreateTemp
actually created never has that name, so the raw uploaded copy is
never deleted; the remuxed copy is never even created (see the C2
theorem). -/
theorem c9_created_temp_file_never_removed (env : UploadEnv) :
    ((handlerUploadVideo env).trace.all removesOnlyLiteralName) = true ∧
    ((createdTempPath env == tempVideoName) = false) := by
  refine ⟨?_, created_ne_literal env⟩
  unfold handlerUploadVideo
  repeat' split
  all_goals simp [ removesOnlyLiteralName, handlerDeferred, List.all_append,
    handlerWithTemp_all_removesOnly]
